import Mathlib

/-! # Book-generation backend (`src/backend/main.go`)

A shallow embedding of the two request handlers of the backend, `jwtMiddleware`
and `generateBook`, and of the forwarder `callQwenAPI`.

* Go strings are Lean `String`s.  The only byte-level operation of the source
  is `strings.Split(authHeader, " ")`; splitting at the ASCII space gives the
  same segments on bytes and on code points.
* Go `int` values (`BookRequest.Chapters`, `resp.StatusCode`) are `Int`.  The
  source never does arithmetic on them (only `<= 0`, `!= 200` and `%d`), so no
  overflow can occur.
* Everything the handlers reach outside the repository (the process
  environment, `jwt.Parse`, Fiber's body binder, `encoding/json`, `net/http`)
  is a field of `World`: the handlers are functions of the world and of the
  request.
* A handler returns the ordered list of its observable effects: log lines,
  the HTTP response it writes, the call of the next handler, the call of
  `callQwenAPI`.
-/

namespace BookWrite

/-! ## Data model (lines 23-52) -/

/-- The request body for book generation (`BookRequest`). -/
structure BookRequest where
  Title : String
  Description : String
  Chapters : Int
  deriving DecidableEq, Repr

/-- One message of the remote request (`QwenMessage`). -/
structure QwenMessage where
  Role : String
  Content : String
  deriving DecidableEq, Repr

/-- The remote request (`QwenAPIRequest`); `Messages` is `Input.Messages`. -/
structure QwenAPIRequest where
  Model : String
  Messages : List QwenMessage
  ResultFormat : String
  deriving DecidableEq, Repr

/-- The remote response (`QwenResponse`); the two fields of `Output`.  A field
absent from the JSON body keeps Go's zero value, the empty string. -/
structure QwenResponse where
  FinishReason : String
  Text : String
  deriving DecidableEq, Repr

/-! ## The world outside the repository -/

/-- A claim value of a `jwt.MapClaims` (an `interface{}`): either a Go `string`
or a value of another dynamic type, kept as its JSON text. -/
inductive ClaimValue where
  | str (s : String)
  | nonString (json : String)
  deriving DecidableEq, Repr

/-- The `*jwt.Token` returned by `jwt.Parse`: `Claims` is `some m` exactly when
the dynamic type of `token.Claims` is `jwt.MapClaims`. -/
structure Token where
  Claims : Option (List (String × ClaimValue))
  Valid : Bool
  deriving DecidableEq, Repr

/-- The outbound HTTP request handed to `client.Do`. -/
structure HttpRequest where
  method : String
  url : String
  headers : List (String × String)
  body : String
  deriving DecidableEq, Repr

/-- What `client.Do` followed by `io.ReadAll(resp.Body)` yields: a transport
error (with the truth value of `ctx.Err() == context.DeadlineExceeded`), or a
response with its status code and the outcome of reading its body. -/
inductive SendResult where
  | failed (deadlineExceeded : Bool) (err : String)
  | response (statusCode : Int) (body : Except String String)

/-- The inbound request as far as the handlers read it. -/
structure Ctx where
  Authorization : String
  Body : String
  deriving DecidableEq, Repr

/-- The library calls and the environment the handlers depend on. -/
structure World where
  /-- The function `os.Getenv`: the empty string for an unset variable. -/
  getenv : String → String
  /-- The call `jwt.Parse(tokenString, keyfunc)` where the key function refuses
  every non-HMAC signing method and returns the given secret. -/
  jwtParse : (tokenString : String) → (jwtSecret : String) → Except String Token
  /-- The call `c.Bind().Body(&req)`. -/
  bindBody : Ctx → Except String BookRequest
  /-- The call `json.Marshal(req)`. -/
  jsonMarshal : QwenAPIRequest → Except String String
  /-- The error of `http.NewRequest(method, url, body)`, if any. -/
  newRequestError : (method : String) → (url : String) → (body : String) → Option String
  /-- The calls `client.Do(httpReq)` and `io.ReadAll(resp.Body)`, under the
  360 second deadline. -/
  clientDo : HttpRequest → SendResult
  /-- The call `json.Unmarshal(body, &qwenResp)`. -/
  jsonUnmarshal : String → Except String QwenResponse

/-! ## Effects -/

/-- An argument of a `log.Printf` call. -/
inductive LogArg where
  | str (s : String)
  | claim (v : Option ClaimValue)
  | resp (r : QwenResponse)
  deriving DecidableEq, Repr

/-- The observable effects of a handler. -/
inductive Effect where
  /-- A call `log.Println(msg)`. -/
  | logPrintln (msg : String)
  /-- A call `log.Printf(format, args...)`. -/
  | logPrintf (format : String) (args : List LogArg)
  /-- A call `c.Status(status).JSON(fiber.Map{...})`. -/
  | respond (status : Nat) (body : List (String × String))
  /-- A call `c.Next()`. -/
  | next
  /-- A call `callQwenAPI(req, apiKey)`. -/
  | callQwen (req : QwenAPIRequest) (apiKey : String)
  deriving DecidableEq, Repr

def StatusOK : Nat := 200
def StatusBadRequest : Nat := 400
def StatusUnauthorized : Nat := 401
def StatusInternalServerError : Nat := 500

/-! ## Library functions used by the handlers -/

/-- Splitting a character list at every occurrence of `sep`
(`strings.Split` with a one-character separator): one more segment than there
are separators. -/
def splitOnChar (sep : Char) : List Char → List (List Char)
  | [] => [[]]
  | c :: cs =>
    if c = sep then [] :: splitOnChar sep cs
    else
      match splitOnChar sep cs with
      | [] => [[c]]
      | p :: ps => (c :: p) :: ps

/-- The call `strings.Split(s, sep)` for a one-character separator. -/
def stringsSplit (s : String) (sep : Char) : List String :=
  (splitOnChar sep s.data).map String.mk

/-- The verb `%d` of `fmt`: the decimal rendering of an integer. -/
def fmtD (n : Int) : String := toString n

/-! ## `jwtMiddleware` (lines 58-107) -/

def jwtMiddleware (w : World) (next : Ctx → List Effect) (c : Ctx) : List Effect :=
  let authHeader := c.Authorization
  if authHeader = "" then
    [.respond StatusUnauthorized [("error", "Missing or malformed JWT")]]
  else
    let parts := stringsSplit authHeader ' '
    if parts.length ≠ 2 ∨ parts.getD 0 "" ≠ "Bearer" then
      [.respond StatusUnauthorized [("error", "Malformed Authorization header")]]
    else
      let tokenString := parts.getD 1 ""
      let jwtSecret := w.getenv "POCKETBASE_TOKEN_SECRET"
      if jwtSecret = "" then
        [.logPrintln "Error: POCKETBASE_TOKEN_SECRET environment variable not set",
         .respond StatusInternalServerError [("error", "Server configuration error")]]
      else
        match w.jwtParse tokenString jwtSecret with
        | .error err =>
          [.logPrintf "JWT validation error: %v\n" [.str err],
           .respond StatusUnauthorized [("error", "Invalid or expired JWT")]]
        | .ok token =>
          match token.Claims, token.Valid with
          | some claims, true =>
            match claims.lookup "type" with
            | some (.str tokenType) =>
              if tokenType ≠ "auth" then
                [.respond StatusUnauthorized [("error", "Invalid token type")]]
              else
                .logPrintf "JWT valid for user ID: %v\n" [.claim (claims.lookup "id")]
                  :: .next :: next c
            | _ => [.respond StatusUnauthorized [("error", "Invalid token type")]]
          | _, _ => [.respond StatusUnauthorized [("error", "Invalid JWT")]]

/-! ## `callQwenAPI` (lines 220-283) -/

/-- The fixed remote endpoint (line 228). -/
def qwenURL : String :=
  "https://dashscope-intl.aliyuncs.com/api/v1/services/aigc/text-generation/generation"

/-- The forwarder: the log lines it writes and its result, the text or the
message of the error it returns. -/
def callQwenAPI (w : World) (req : QwenAPIRequest) (apiKey : String) :
    List Effect × Except String String :=
  match w.jsonMarshal req with
  | .error err => ([], .error ("failed to marshal request: " ++ err))
  | .ok jsonData =>
    let url := qwenURL
    match w.newRequestError "POST" url jsonData with
    | some err => ([], .error ("failed to create HTTP request: " ++ err))
    | none =>
      let httpReq : HttpRequest :=
        { method := "POST", url := url,
          headers := [("Content-Type", "application/json"),
                      ("Authorization", "Bearer " ++ apiKey)],
          body := jsonData }
      match w.clientDo httpReq with
      | .failed deadlineExceeded err =>
        if deadlineExceeded then
          ([], .error ("request timed out after 6 minutes: " ++ err))
        else
          ([], .error ("failed to send request: " ++ err))
      | .response _ (.error err) =>
        ([], .error ("failed to read response body: " ++ err))
      | .response statusCode (.ok body) =>
        if statusCode ≠ 200 then
          ([], .error ("Qwen API returned status " ++ fmtD statusCode ++ ": " ++ body))
        else
          match w.jsonUnmarshal body with
          | .error err =>
            ([], .error ("failed to parse Qwen JSON response: " ++ err
                          ++ ", response body: " ++ body))
          | .ok qwenResp =>
            if qwenResp.Text = "" then
              let warning : Effect :=
                .logPrintf
                  "Warning: Qwen API returned empty text. FinishReason: '%s'. Full response: %+v\n"
                  [.str qwenResp.FinishReason, .resp qwenResp]
              let finishReason := qwenResp.FinishReason
              if finishReason ≠ "stop" ∧ finishReason ≠ "" then
                ([warning], .error ("API generation finished unexpectedly with reason: "
                                      ++ finishReason))
              else
                ([warning], .error "API returned an empty response text")
            else
              ([], .ok qwenResp.Text)

/-! ## `generateBook` (lines 150-217) -/

/-- The system prompt (lines 177-186). -/
def systemPrompt (req : BookRequest) : String :=
  "You are a professional book writer.\nGenerate a complete book with the following details:\n- Title: "
    ++ req.Title ++ "\n- Description: " ++ req.Description
    ++ "\n- Number of chapters: " ++ fmtD req.Chapters
    ++ "\n\nThe book should have a coherent narrative that follows the description.\nEach chapter should have a title and substantial content.\nFormat the book with proper Markdown, including headings for chapters.\nCreate a compelling opening and satisfying conclusion."

/-- The content of the user message (line 199). -/
def userPrompt (req : BookRequest) : String :=
  "Please generate a complete book titled '" ++ req.Title ++ "' with "
    ++ fmtD req.Chapters ++ " chapters based on this description: " ++ req.Description

/-- The remote request payload (lines 189-201). -/
def qwenRequest (req : BookRequest) : QwenAPIRequest :=
  { Model := "qwen-plus",
    ResultFormat := "message",
    Messages := [{ Role := "system", Content := systemPrompt req },
                 { Role := "user", Content := userPrompt req }] }

def generateBook (w : World) (c : Ctx) : List Effect :=
  match w.bindBody c with
  | .error err =>
    [.respond StatusBadRequest [("error", "Invalid request body: " ++ err)]]
  | .ok req =>
    if req.Title = "" ∨ req.Description = "" ∨ req.Chapters ≤ 0 then
      [.respond StatusBadRequest [("error", "Title, description, and chapters are required")]]
    else
      let apiKey := w.getenv "QWEN_API_KEY"
      if apiKey = "" then
        [.logPrintln "Error: QWEN_API_KEY environment variable not set",
         .respond StatusInternalServerError
           [("error", "Server configuration error (missing AI API key)")]]
      else
        let qwenReq := qwenRequest req
        let called := callQwenAPI w qwenReq apiKey
        .callQwen qwenReq apiKey :: called.1 ++
          match called.2 with
          | .error err =>
            [.logPrintf "Error calling Qwen API: %v" [.str err],
             .respond StatusInternalServerError
               [("error", "Failed to generate book: " ++ err)]]
          | .ok bookContent => [.respond StatusOK [("book", bookContent)]]

/-- The route `POST /generate-book` (line 137): the middleware, then the
handler. -/
def generateBookRoute (w : World) (c : Ctx) : List Effect :=
  jwtMiddleware w (generateBook w) c

/-! ## Observations on a run -/

/-- The number of log entries of a run. -/
def logCount : List Effect → Nat
  | [] => 0
  | .logPrintln _ :: es => logCount es + 1
  | .logPrintf _ _ :: es => logCount es + 1
  | _ :: es => logCount es

/-- The number of HTTP responses written in a run. -/
def responseCount : List Effect → Nat
  | [] => 0
  | .respond _ _ :: es => responseCount es + 1
  | _ :: es => responseCount es

/-- Whether the run handed the request to the next handler. -/
def invokesNext (es : List Effect) : Bool := es.contains .next

/-- Whether the run called the forwarder. -/
def invokesForwarder : List Effect → Bool
  | [] => false
  | .callQwen _ _ :: _ => true
  | _ :: es => invokesForwarder es

/-- The string `t` occurs in `s` as a literal substring. -/
def Contains (s t : String) : Prop := List.IsInfix t.data s.data

instance (s t : String) : Decidable (Contains s t) := by
  unfold Contains; infer_instance


/-- The remote API answers the call `callQwenAPI(req, apiKey)` with status 200
and a body that decodes with an empty text. -/
def EmptyTextAnswer (w : World) (req : QwenAPIRequest) (apiKey : String) : Prop :=
  ∃ jsonData body qwenResp,
    w.jsonMarshal req = .ok jsonData
    ∧ w.newRequestError "POST" qwenURL jsonData = none
    ∧ w.clientDo
        { method := "POST", url := qwenURL,
          headers := [("Content-Type", "application/json"),
                      ("Authorization", "Bearer " ++ apiKey)],
          body := jsonData } = .response 200 (.ok body)
    ∧ w.jsonUnmarshal body = .ok qwenResp
    ∧ qwenResp.Text = ""

/-! ## Test fixtures: a concrete world -/

def stopBody : String :=
  "\x7b\"output\":\x7b\"finish_reason\":\"stop\",\"text\":\"Chapter 1...\"\x7d\x7d"

def lengthEmptyBody : String :=
  "\x7b\"output\":\x7b\"finish_reason\":\"length\",\"text\":\"\"\x7d\x7d"

def lengthTextBody : String :=
  "\x7b\"output\":\x7b\"finish_reason\":\"length\",\"text\":\"Chapter 1\"\x7d\x7d"

/-- A token parser for tests: two well-signed tokens, one of type `auth` and
one of type `refresh`; every other token is refused. -/
def testParse (tokenString _jwtSecret : String) : Except String Token :=
  if tokenString = "auth-token" then
    .ok { Claims := some [("id", .str "user1"), ("type", .str "auth")], Valid := true }
  else if tokenString = "refresh-token" then
    .ok { Claims := some [("id", .str "user1"), ("type", .str "refresh")], Valid := true }
  else .error "token signature is invalid"

/-- A decoder for tests: the three bodies above. -/
def testUnmarshal (body : String) : Except String QwenResponse :=
  if body = stopBody then .ok { FinishReason := "stop", Text := "Chapter 1..." }
  else if body = lengthEmptyBody then .ok { FinishReason := "length", Text := "" }
  else if body = lengthTextBody then .ok { FinishReason := "length", Text := "Chapter 1" }
  else .error "invalid character"

/-- A world for tests: the signing secret, the API key, the decoded request
body and the answer of the remote API are given. -/
def testWorld (secret apiKey : String) (req : BookRequest) (upstream : SendResult) : World :=
  { getenv := fun name =>
      if name = "POCKETBASE_TOKEN_SECRET" then secret
      else if name = "QWEN_API_KEY" then apiKey
      else "",
    jwtParse := testParse,
    bindBody := fun _ => .ok req,
    jsonMarshal := fun _ => .ok "payload",
    newRequestError := fun _ _ _ => none,
    clientDo := fun _ => upstream,
    jsonUnmarshal := testUnmarshal }

def lighthouse : BookRequest :=
  { Title := "The Lighthouse", Description := "A keeper's last night", Chapters := 3 }

/-! ## Splitting -/

theorem splitOnChar_ne_nil (sep : Char) (l : List Char) : splitOnChar sep l ≠ [] := by
  cases l with
  | nil => simp [splitOnChar]
  | cons c cs =>
    unfold splitOnChar
    split
    · simp
    · split <;> simp

theorem splitOnChar_cons (sep c : Char) (cs : List Char) :
    splitOnChar sep (c :: cs) =
      if c = sep then [] :: splitOnChar sep cs
      else
        match splitOnChar sep cs with
        | [] => [[c]]
        | p :: ps => (c :: p) :: ps := rfl

theorem splitOnChar_of_not_mem (sep : Char) (l : List Char) (h : sep ∉ l) :
    splitOnChar sep l = [l] := by
  induction l with
  | nil => rfl
  | cons c cs ih =>
    simp only [List.mem_cons, not_or] at h
    rw [splitOnChar_cons, if_neg (fun e => h.1 e.symm), ih h.2]

theorem splitOnChar_append (sep : Char) (a b : List Char) (h : sep ∉ a) :
    splitOnChar sep (a ++ sep :: b) = a :: splitOnChar sep b := by
  induction a with
  | nil => simp [splitOnChar]
  | cons c cs ih =>
    simp only [List.mem_cons, not_or] at h
    rw [List.cons_append, splitOnChar_cons, if_neg (fun e => h.1 e.symm), ih h.2]

theorem exists_first_sep (sep : Char) (l : List Char) :
    sep ∉ l ∨ ∃ a b, sep ∉ a ∧ l = a ++ sep :: b := by
  induction l with
  | nil => left; simp
  | cons c cs ih =>
    by_cases hc : c = sep
    · right; exact ⟨[], cs, by simp, by simp [hc]⟩
    · rcases ih with h | ⟨a, b, ha, rfl⟩
      · left; simp [h, Ne.symm hc]
      · right; exact ⟨c :: a, b, by simp [ha, Ne.symm hc], by simp⟩

theorem splitOnChar_eq_pair (sep : Char) (l x y : List Char) :
    splitOnChar sep l = [x, y] ↔ sep ∉ x ∧ sep ∉ y ∧ l = x ++ sep :: y := by
  constructor
  · intro h
    rcases exists_first_sep sep l with hl | ⟨a, b, ha, rfl⟩
    · rw [splitOnChar_of_not_mem sep l hl] at h
      simp at h
    · rw [splitOnChar_append sep a b ha] at h
      simp only [List.cons.injEq] at h
      obtain ⟨rfl, hb⟩ := h
      rcases exists_first_sep sep b with hb2 | ⟨a2, b2, ha2, rfl⟩
      · rw [splitOnChar_of_not_mem sep b hb2] at hb
        simp only [List.cons.injEq, and_true] at hb
        subst hb
        exact ⟨ha, hb2, rfl⟩
      · rw [splitOnChar_append sep a2 b2 ha2] at hb
        simp only [List.cons.injEq] at hb
        exact absurd hb.2 (splitOnChar_ne_nil sep b2)
  · rintro ⟨hx, hy, rfl⟩
    rw [splitOnChar_append sep x y hx, splitOnChar_of_not_mem sep y hy]

theorem bearer_token (tok : String) (htok : ' ' ∉ tok.data) :
    stringsSplit ("Bearer " ++ tok) ' ' = ["Bearer", tok] := by
  have : splitOnChar ' ' ("Bearer " ++ tok).data = ["Bearer".data, tok.data] :=
    (splitOnChar_eq_pair ' ' _ _ _).mpr ⟨by decide, htok, by rw [String.data_append]; rfl⟩
  rw [stringsSplit, this]
  rfl

/-- The header passes the format check of `jwtMiddleware` (line 66) exactly
when it is `Bearer`, one space, and a token without a space; the token is then
the second segment. -/
theorem bearer_format_iff (h : String) :
    (¬ ((stringsSplit h ' ').length ≠ 2 ∨ (stringsSplit h ' ').getD 0 "" ≠ "Bearer")) ↔
      ∃ tok : String, ' ' ∉ tok.data ∧ h = "Bearer " ++ tok := by
  constructor
  · intro hh
    simp only [not_or, not_not] at hh
    obtain ⟨hlen, hfirst⟩ := hh
    unfold stringsSplit at hlen hfirst
    match hs : splitOnChar ' ' h.data, hlen, hfirst with
    | [x, y], _, hfirst =>
      simp only [List.map, List.getD_cons_zero] at hfirst
      have := (splitOnChar_eq_pair ' ' h.data x y).mp hs
      refine ⟨⟨y⟩, this.2.1, ?_⟩
      apply String.ext
      rw [this.2.2, String.data_append]
      have hx : x = "Bearer".data := congrArg String.data hfirst
      rw [hx]
      rfl
  · rintro ⟨tok, htok, rfl⟩
    rw [bearer_token tok htok]
    simp

/-! ## The Auth Gate -/

/-- C2 (as amended): a non-empty Authorization header that is not exactly
`Bearer`, one space character and one segment free of the space character
(the segment may be empty and may hold other whitespace, such as a tab) is
answered with 401 and the message "Malformed Authorization header", whatever
the world (and so whatever the signing secret); neither the next handler nor
the forwarder runs. -/
theorem jwtMiddleware_malformed_header (w : World) (next : Ctx → List Effect) (c : Ctx)
    (hne : c.Authorization ≠ "")
    (hbad : ¬ ∃ tok : String, ' ' ∉ tok.data ∧ c.Authorization = "Bearer " ++ tok) :
    jwtMiddleware w next c
        = [.respond 401 [("error", "Malformed Authorization header")]]
      ∧ invokesNext (jwtMiddleware w next c) = false
      ∧ generateBookRoute w c
        = [.respond 401 [("error", "Malformed Authorization header")]]
      ∧ invokesForwarder (generateBookRoute w c) = false := by
  have hfmt := (not_congr (bearer_format_iff c.Authorization)).mpr hbad
  rw [not_not] at hfmt
  have key : ∀ nxt, jwtMiddleware w nxt c
      = [.respond 401 [("error", "Malformed Authorization header")]] := by
    intro nxt
    unfold jwtMiddleware
    simp only [if_neg hne, if_pos hfmt]
    rfl
  refine ⟨key next, ?_, key _, ?_⟩
  · rw [key next]; rfl
  · rw [generateBookRoute, key]; rfl

/-- The five headers named by the specification fail the format check. -/
theorem malformed_examples :
    ∀ h ∈ ["Token abc", "bearer abc", "Bearer a b", "Bearer  abc", "Bearer"],
      h ≠ "" ∧ ¬ ∃ tok : String, ' ' ∉ tok.data ∧ h = "Bearer " ++ tok := by
  intro h hmem
  refine ⟨?_, (not_congr (bearer_format_iff h)).mp (not_not.mpr ?_)⟩
  · revert h; decide
  · revert h; decide

theorem jwtMiddleware_malformed_header_witness :
    jwtMiddleware (testWorld "" "key" lighthouse (.failed false "down"))
        (generateBook (testWorld "" "key" lighthouse (.failed false "down")))
        { Authorization := "Token abc", Body := "" }
      = [.respond 401 [("error", "Malformed Authorization header")]]
    ∧ jwtMiddleware (testWorld "s3cret" "key" lighthouse (.failed false "down"))
        (generateBook (testWorld "s3cret" "key" lighthouse (.failed false "down")))
        { Authorization := "bearer abc", Body := "" }
      = [.respond 401 [("error", "Malformed Authorization header")]]
    ∧ jwtMiddleware (testWorld "" "key" lighthouse (.failed false "down"))
        (generateBook (testWorld "" "key" lighthouse (.failed false "down")))
        { Authorization := "Bearer a b", Body := "" }
      = [.respond 401 [("error", "Malformed Authorization header")]]
    ∧ jwtMiddleware (testWorld "s3cret" "key" lighthouse (.failed false "down"))
        (generateBook (testWorld "s3cret" "key" lighthouse (.failed false "down")))
        { Authorization := "Bearer  abc", Body := "" }
      = [.respond 401 [("error", "Malformed Authorization header")]]
    ∧ jwtMiddleware (testWorld "" "key" lighthouse (.failed false "down"))
        (generateBook (testWorld "" "key" lighthouse (.failed false "down")))
        { Authorization := "Bearer", Body := "" }
      = [.respond 401 [("error", "Malformed Authorization header")]] :=
  ⟨(jwtMiddleware_malformed_header _ _ { Authorization := "Token abc", Body := "" }
      (malformed_examples _ (by decide)).1 (malformed_examples _ (by decide)).2).1,
   (jwtMiddleware_malformed_header _ _ { Authorization := "bearer abc", Body := "" }
      (malformed_examples _ (by decide)).1 (malformed_examples _ (by decide)).2).1,
   (jwtMiddleware_malformed_header _ _ { Authorization := "Bearer a b", Body := "" }
      (malformed_examples _ (by decide)).1 (malformed_examples _ (by decide)).2).1,
   (jwtMiddleware_malformed_header _ _ { Authorization := "Bearer  abc", Body := "" }
      (malformed_examples _ (by decide)).1 (malformed_examples _ (by decide)).2).1,
   (jwtMiddleware_malformed_header _ _ { Authorization := "Bearer", Body := "" }
      (malformed_examples _ (by decide)).1 (malformed_examples _ (by decide)).2).1⟩

/-- C2 (as stated) fails: the header `Bearer a<TAB>b` has three
whitespace-delimited segments and the header `Bearer` followed by one space
has no token, yet both pass the format check of line 66, which splits at the
space character only; with no signing secret they are answered with 500
"Server configuration error", not with 401 "Malformed Authorization header". -/
theorem jwtMiddleware_tab_and_empty_token_pass :
    stringsSplit "Bearer a\tb" ' ' = ["Bearer", "a\tb"]
    ∧ jwtMiddleware (testWorld "" "key" lighthouse (.failed false "down"))
        (generateBook (testWorld "" "key" lighthouse (.failed false "down")))
        { Authorization := "Bearer a\tb", Body := "" }
      = [.logPrintln "Error: POCKETBASE_TOKEN_SECRET environment variable not set",
         .respond 500 [("error", "Server configuration error")]]
    ∧ stringsSplit "Bearer " ' ' = ["Bearer", ""]
    ∧ jwtMiddleware (testWorld "" "key" lighthouse (.failed false "down"))
        (generateBook (testWorld "" "key" lighthouse (.failed false "down")))
        { Authorization := "Bearer ", Body := "" }
      = [.logPrintln "Error: POCKETBASE_TOKEN_SECRET environment variable not set",
         .respond 500 [("error", "Server configuration error")]]
    ∧ [Effect.logPrintln "Error: POCKETBASE_TOKEN_SECRET environment variable not set",
       Effect.respond 500 [("error", "Server configuration error")]]
        ≠ [Effect.respond 401 [("error", "Malformed Authorization header")]] :=
  ⟨by decide, rfl, by decide, rfl, by decide⟩

/-- The middleware on a well-formed header: the checks of lines 60 and 66
pass and the token is the second segment. -/
theorem jwtMiddleware_bearer (w : World) (next : Ctx → List Effect) (c : Ctx) (tok : String)
    (hhdr : c.Authorization = "Bearer " ++ tok) (htok : ' ' ∉ tok.data) :
    jwtMiddleware w next c =
      if w.getenv "POCKETBASE_TOKEN_SECRET" = "" then
        [.logPrintln "Error: POCKETBASE_TOKEN_SECRET environment variable not set",
         .respond 500 [("error", "Server configuration error")]]
      else
        match w.jwtParse tok (w.getenv "POCKETBASE_TOKEN_SECRET") with
        | .error err =>
          [.logPrintf "JWT validation error: %v\n" [.str err],
           .respond 401 [("error", "Invalid or expired JWT")]]
        | .ok token =>
          match token.Claims, token.Valid with
          | some claims, true =>
            match claims.lookup "type" with
            | some (.str tokenType) =>
              if tokenType ≠ "auth" then
                [.respond 401 [("error", "Invalid token type")]]
              else
                .logPrintf "JWT valid for user ID: %v\n" [.claim (claims.lookup "id")]
                  :: .next :: next c
            | _ => [.respond 401 [("error", "Invalid token type")]]
          | _, _ => [.respond 401 [("error", "Invalid JWT")]] := by
  have hne : c.Authorization ≠ "" := by
    rw [hhdr]
    intro h
    have := congrArg String.data h
    rw [String.data_append] at this
    exact absurd this (by simp)
  have hsplit : stringsSplit c.Authorization ' ' = ["Bearer", tok] := by
    rw [hhdr]; exact bearer_token tok htok
  unfold jwtMiddleware
  simp only [if_neg hne, hsplit]
  rfl

/-- C9: with a header of the form `Bearer <token>` and no signing secret in the
environment, the middleware answers 500 (a server error, not 401), for every
token, and does not call the next handler. -/
theorem jwtMiddleware_missing_secret (w : World) (next : Ctx → List Effect) (c : Ctx)
    (tok : String) (hhdr : c.Authorization = "Bearer " ++ tok) (htok : ' ' ∉ tok.data)
    (hsecret : w.getenv "POCKETBASE_TOKEN_SECRET" = "") :
    jwtMiddleware w next c
        = [.logPrintln "Error: POCKETBASE_TOKEN_SECRET environment variable not set",
           .respond StatusInternalServerError [("error", "Server configuration error")]]
      ∧ StatusInternalServerError = 500
      ∧ (∀ body, Effect.respond StatusUnauthorized body ∉ jwtMiddleware w next c)
      ∧ invokesNext (jwtMiddleware w next c) = false
      ∧ invokesForwarder (generateBookRoute w c) = false := by
  have key : ∀ nxt, jwtMiddleware w nxt c
      = [.logPrintln "Error: POCKETBASE_TOKEN_SECRET environment variable not set",
         .respond StatusInternalServerError [("error", "Server configuration error")]] := by
    intro nxt
    rw [jwtMiddleware_bearer w nxt c tok hhdr htok, if_pos hsecret]
    rfl
  refine ⟨key next, rfl, ?_, ?_, ?_⟩
  · intro body
    rw [key next]
    simp [StatusInternalServerError, StatusUnauthorized]
  · rw [key next]; rfl
  · rw [generateBookRoute, key]; rfl

theorem jwtMiddleware_missing_secret_witness :
    jwtMiddleware (testWorld "" "key" lighthouse (.failed false "down"))
        (generateBook (testWorld "" "key" lighthouse (.failed false "down")))
        { Authorization := "Bearer auth-token", Body := "" }
      = [.logPrintln "Error: POCKETBASE_TOKEN_SECRET environment variable not set",
         .respond 500 [("error", "Server configuration error")]] :=
  (jwtMiddleware_missing_secret (testWorld "" "key" lighthouse (.failed false "down")) _
    { Authorization := "Bearer auth-token", Body := "" } "auth-token" rfl (by decide) rfl).1

/-- C1: with a well-formed header and a non-empty signing secret, a token the
parser accepts (no error, map claims, valid) reaches the next handler exactly
when its claim `type` is the string "auth"; otherwise the answer is 401 with
"Invalid token type", which is not the answer to a token the parser refuses
(401 with "Invalid or expired JWT"). -/
theorem jwtMiddleware_token_type (w : World) (next : Ctx → List Effect) (c : Ctx)
    (tok : String) (hhdr : c.Authorization = "Bearer " ++ tok) (htok : ' ' ∉ tok.data)
    (hsecret : w.getenv "POCKETBASE_TOKEN_SECRET" ≠ "") :
    (∀ claims, w.jwtParse tok (w.getenv "POCKETBASE_TOKEN_SECRET")
          = .ok { Claims := some claims, Valid := true } →
        (invokesNext (jwtMiddleware w next c) = true
          ↔ claims.lookup "type" = some (.str "auth"))
        ∧ (claims.lookup "type" = some (.str "auth") →
            jwtMiddleware w next c
              = .logPrintf "JWT valid for user ID: %v\n" [.claim (claims.lookup "id")]
                  :: .next :: next c)
        ∧ (claims.lookup "type" ≠ some (.str "auth") →
            jwtMiddleware w next c
              = [.respond 401 [("error", "Invalid token type")]]))
    ∧ (∀ err, w.jwtParse tok (w.getenv "POCKETBASE_TOKEN_SECRET") = .error err →
        jwtMiddleware w next c
          = [.logPrintf "JWT validation error: %v\n" [.str err],
             .respond 401 [("error", "Invalid or expired JWT")]])
    ∧ Effect.respond 401 [("error", "Invalid token type")]
        ≠ Effect.respond 401 [("error", "Invalid or expired JWT")] := by
  have hm := jwtMiddleware_bearer w next c tok hhdr htok
  rw [if_neg hsecret] at hm
  refine ⟨?_, ?_, by decide⟩
  · intro claims hparse
    rw [hparse] at hm
    simp only at hm
    have hyes : claims.lookup "type" = some (.str "auth") →
        jwtMiddleware w next c
          = .logPrintf "JWT valid for user ID: %v\n" [.claim (claims.lookup "id")]
              :: .next :: next c := by
      intro ht
      rw [hm, ht]
      simp
    have hno : claims.lookup "type" ≠ some (.str "auth") →
        jwtMiddleware w next c = [.respond 401 [("error", "Invalid token type")]] := by
      intro ht
      rw [hm]
      split
      · next tokenType heq =>
        have : tokenType ≠ "auth" := by
          intro e; apply ht; rw [heq, e]
        rw [if_pos this]
      · rfl
    refine ⟨?_, hyes, hno⟩
    by_cases ht : claims.lookup "type" = some (.str "auth")
    · rw [hyes ht]
      simp [invokesNext, ht]
    · rw [hno ht]
      simp [invokesNext, ht]
  · intro err hparse
    rw [hparse] at hm
    exact hm

theorem jwtMiddleware_token_type_witness :
    (invokesNext
        (jwtMiddleware (testWorld "s3cret" "key" lighthouse (.failed false "down"))
          (generateBook (testWorld "s3cret" "key" lighthouse (.failed false "down")))
          { Authorization := "Bearer auth-token", Body := "" }) = true
      ↔ List.lookup "type" [("id", ClaimValue.str "user1"), ("type", ClaimValue.str "auth")]
          = some (.str "auth"))
    ∧ jwtMiddleware (testWorld "s3cret" "key" lighthouse (.failed false "down"))
        (generateBook (testWorld "s3cret" "key" lighthouse (.failed false "down")))
        { Authorization := "Bearer refresh-token", Body := "" }
      = [.respond 401 [("error", "Invalid token type")]]
    ∧ jwtMiddleware (testWorld "s3cret" "key" lighthouse (.failed false "down"))
        (generateBook (testWorld "s3cret" "key" lighthouse (.failed false "down")))
        { Authorization := "Bearer forged-token", Body := "" }
      = [.logPrintf "JWT validation error: %v\n" [.str "token signature is invalid"],
         .respond 401 [("error", "Invalid or expired JWT")]] :=
  ⟨((jwtMiddleware_token_type (testWorld "s3cret" "key" lighthouse (.failed false "down")) _
      { Authorization := "Bearer auth-token", Body := "" } "auth-token" rfl (by decide)
      (by decide)).1 _ rfl).1,
   ((jwtMiddleware_token_type (testWorld "s3cret" "key" lighthouse (.failed false "down")) _
      { Authorization := "Bearer refresh-token", Body := "" } "refresh-token" rfl (by decide)
      (by decide)).1 _ rfl).2.2 (by decide),
   (jwtMiddleware_token_type (testWorld "s3cret" "key" lighthouse (.failed false "down")) _
      { Authorization := "Bearer forged-token", Body := "" } "forged-token" rfl (by decide)
      (by decide)).2.1 _ rfl⟩


/-! ## Substrings -/

theorem contains_append_right (a t : String) : Contains (a ++ t) t := by
  unfold Contains
  rw [String.data_append]
  exact ⟨a.data, [], by simp⟩

theorem contains_append_of_left (s t u : String) (h : Contains s t) : Contains (s ++ u) t := by
  unfold Contains at h ⊢
  rw [String.data_append]
  obtain ⟨a, b, hab⟩ := h
  exact ⟨a, b ++ u.data, by rw [← hab]; simp⟩

theorem configError_ne_failedMessage (e : String) :
    "Server configuration error" ≠ "Failed to generate book: " ++ e := by
  intro h
  have := congrArg String.data h
  rw [String.data_append] at this
  exact absurd this (by simp)

theorem missingKey_ne_failedMessage (e : String) :
    "Server configuration error (missing AI API key)" ≠ "Failed to generate book: " ++ e := by
  intro h
  have := congrArg String.data h
  rw [String.data_append] at this
  exact absurd this (by simp)

theorem failedMessage_ne_configError (e : String) :
    "Failed to generate book: " ++ e ≠ "Server configuration error" :=
  fun h => configError_ne_failedMessage e h.symm

theorem failedMessage_ne_missingKey (e : String) :
    "Failed to generate book: " ++ e ≠ "Server configuration error (missing AI API key)" :=
  fun h => missingKey_ne_failedMessage e h.symm

/-! ## The Generation Forwarder -/

/-- The HTTP request `callQwenAPI` sends for a marshalled payload (lines
229-241). -/
theorem callQwenAPI_ok_200 (w : World) (req : QwenAPIRequest) (apiKey jsonData body : String)
    (hmarshal : w.jsonMarshal req = .ok jsonData)
    (hnew : w.newRequestError "POST" qwenURL jsonData = none)
    (hsend : w.clientDo
        { method := "POST", url := qwenURL,
          headers := [("Content-Type", "application/json"),
                      ("Authorization", "Bearer " ++ apiKey)],
          body := jsonData } = .response 200 (.ok body)) :
    callQwenAPI w req apiKey =
      match w.jsonUnmarshal body with
      | .error err =>
        ([], .error ("failed to parse Qwen JSON response: " ++ err
                      ++ ", response body: " ++ body))
      | .ok qwenResp =>
        if qwenResp.Text = "" then
          if qwenResp.FinishReason ≠ "stop" ∧ qwenResp.FinishReason ≠ "" then
            ([.logPrintf
                "Warning: Qwen API returned empty text. FinishReason: '%s'. Full response: %+v\n"
                [.str qwenResp.FinishReason, .resp qwenResp]],
             .error ("API generation finished unexpectedly with reason: "
                      ++ qwenResp.FinishReason))
          else
            ([.logPrintf
                "Warning: Qwen API returned empty text. FinishReason: '%s'. Full response: %+v\n"
                [.str qwenResp.FinishReason, .resp qwenResp]],
             .error "API returned an empty response text")
        else
          ([], .ok qwenResp.Text) := by
  unfold callQwenAPI
  simp only [hmarshal, hnew, hsend]
  simp

/-- What a successful return of `callQwenAPI` means. -/
theorem callQwenAPI_ok_iff (w : World) (req : QwenAPIRequest) (apiKey t : String) :
    (callQwenAPI w req apiKey).2 = .ok t ↔
      ∃ jsonData body qwenResp,
        w.jsonMarshal req = .ok jsonData
        ∧ w.newRequestError "POST" qwenURL jsonData = none
        ∧ w.clientDo
            { method := "POST", url := qwenURL,
              headers := [("Content-Type", "application/json"),
                          ("Authorization", "Bearer " ++ apiKey)],
              body := jsonData } = .response 200 (.ok body)
        ∧ w.jsonUnmarshal body = .ok qwenResp
        ∧ qwenResp.Text = t ∧ t ≠ "" := by
  constructor
  · intro h
    cases hmarshal : w.jsonMarshal req with
    | error e => simp [callQwenAPI, hmarshal] at h
    | ok jsonData =>
      cases hnew : w.newRequestError "POST" qwenURL jsonData with
      | some e => simp [callQwenAPI, hmarshal, hnew] at h
      | none =>
        cases hsend : w.clientDo
            { method := "POST", url := qwenURL,
              headers := [("Content-Type", "application/json"),
                          ("Authorization", "Bearer " ++ apiKey)],
              body := jsonData } with
        | failed d e =>
          cases d <;> simp [callQwenAPI, hmarshal, hnew, hsend] at h
        | response statusCode rd =>
          cases rd with
          | error e => simp [callQwenAPI, hmarshal, hnew, hsend] at h
          | ok body =>
            by_cases hstatus : statusCode = 200
            · subst hstatus
              rw [callQwenAPI_ok_200 w req apiKey jsonData body hmarshal hnew hsend] at h
              cases hdecode : w.jsonUnmarshal body with
              | error e => simp [hdecode] at h
              | ok qwenResp =>
                rw [hdecode] at h
                by_cases htext : qwenResp.Text = ""
                · simp only [if_pos htext] at h
                  split at h <;> simp at h
                · simp only [if_neg htext, Except.ok.injEq] at h
                  exact ⟨jsonData, body, qwenResp, rfl, hnew, hsend, hdecode, h, h ▸ htext⟩
            · simp [callQwenAPI, hmarshal, hnew, hsend, hstatus] at h
  · rintro ⟨jsonData, body, qwenResp, hmarshal, hnew, hsend, hdecode, rfl, hne⟩
    rw [callQwenAPI_ok_200 w req apiKey jsonData body hmarshal hnew hsend, hdecode]
    simp only [if_neg hne]


/-- The forwarder on an answer whose status is not 200 (lines 261-263). -/
theorem callQwenAPI_status (w : World) (req : QwenAPIRequest)
    (apiKey jsonData body : String) (statusCode : Int)
    (hmarshal : w.jsonMarshal req = .ok jsonData)
    (hnew : w.newRequestError "POST" qwenURL jsonData = none)
    (hsend : w.clientDo
        { method := "POST", url := qwenURL,
          headers := [("Content-Type", "application/json"),
                      ("Authorization", "Bearer " ++ apiKey)],
          body := jsonData } = .response statusCode (.ok body))
    (hstatus : statusCode ≠ 200) :
    callQwenAPI w req apiKey
      = ([], .error ("Qwen API returned status " ++ fmtD statusCode ++ ": " ++ body)) := by
  unfold callQwenAPI
  simp only [hmarshal, hnew, hsend]
  simp [hstatus]

/-- The handler once the body is decoded, the fields are valid and the API key
is set (lines 176-216). -/
theorem generateBook_valid (w : World) (c : Ctx) (req : BookRequest)
    (hbind : w.bindBody c = .ok req)
    (hvalid : ¬ (req.Title = "" ∨ req.Description = "" ∨ req.Chapters ≤ 0))
    (hkey : w.getenv "QWEN_API_KEY" ≠ "") :
    generateBook w c =
      .callQwen (qwenRequest req) (w.getenv "QWEN_API_KEY")
        :: (callQwenAPI w (qwenRequest req) (w.getenv "QWEN_API_KEY")).1 ++
          match (callQwenAPI w (qwenRequest req) (w.getenv "QWEN_API_KEY")).2 with
          | .error err =>
            [.logPrintf "Error calling Qwen API: %v" [.str err],
             .respond 500 [("error", "Failed to generate book: " ++ err)]]
          | .ok bookContent => [.respond 200 [("book", bookContent)]] := by
  unfold generateBook
  simp only [hbind, if_neg hvalid, if_neg hkey]
  rfl

/-- C3 (as amended): a successful return `(t, nil)` of `callQwenAPI` means that
the remote API answered 200 and that the body decoded to the text `t`, which
is not empty.  The finish reason is not part of the condition. -/
theorem callQwenAPI_success_only (w : World) (req : QwenAPIRequest) (apiKey t : String)
    (h : (callQwenAPI w req apiKey).2 = .ok t) :
    ∃ jsonData body qwenResp,
      w.jsonMarshal req = .ok jsonData
      ∧ w.clientDo
          { method := "POST", url := qwenURL,
            headers := [("Content-Type", "application/json"),
                        ("Authorization", "Bearer " ++ apiKey)],
            body := jsonData } = .response 200 (.ok body)
      ∧ w.jsonUnmarshal body = .ok qwenResp
      ∧ qwenResp.Text = t ∧ t ≠ "" := by
  obtain ⟨jsonData, body, qwenResp, h1, _, h3, h4, h5, h6⟩ :=
    (callQwenAPI_ok_iff w req apiKey t).mp h
  exact ⟨jsonData, body, qwenResp, h1, h3, h4, h5, h6⟩

theorem callQwenAPI_success_only_witness :
    ∃ jsonData body qwenResp,
      (testWorld "s3cret" "key" lighthouse (.response 200 (.ok stopBody))).jsonMarshal
          (qwenRequest lighthouse) = .ok jsonData
      ∧ (testWorld "s3cret" "key" lighthouse (.response 200 (.ok stopBody))).clientDo
          { method := "POST", url := qwenURL,
            headers := [("Content-Type", "application/json"),
                        ("Authorization", "Bearer " ++ "key")],
            body := jsonData } = .response 200 (.ok body)
      ∧ (testWorld "s3cret" "key" lighthouse (.response 200 (.ok stopBody))).jsonUnmarshal body
          = .ok qwenResp
      ∧ qwenResp.Text = "Chapter 1..." ∧ "Chapter 1..." ≠ "" :=
  callQwenAPI_success_only (testWorld "s3cret" "key" lighthouse (.response 200 (.ok stopBody)))
    (qwenRequest lighthouse) "key" "Chapter 1..." rfl

/-- C3 (as stated) fails: the remote API answers 200 with the text
"Chapter 1" and the finish reason "length", which is neither "stop" nor
absent, and `callQwenAPI` returns the text with no error. -/
theorem callQwenAPI_success_with_length :
    (testWorld "s3cret" "key" lighthouse (.response 200 (.ok lengthTextBody))).jsonUnmarshal
        lengthTextBody = .ok { FinishReason := "length", Text := "Chapter 1" }
    ∧ ¬ ("length" = "stop" ∨ "length" = "")
    ∧ callQwenAPI (testWorld "s3cret" "key" lighthouse (.response 200 (.ok lengthTextBody)))
        (qwenRequest lighthouse) "key" = ([], .ok "Chapter 1") :=
  ⟨rfl, by decide, rfl⟩


/-- C4: when the remote API answers 200 and the body decodes with an empty
text, `callQwenAPI` fails: with "API generation finished unexpectedly with
reason: <reason>" when the finish reason is present and not "stop", and with
"API returned an empty response text" otherwise.  It never succeeds. -/
theorem callQwenAPI_empty_text (w : World) (req : QwenAPIRequest)
    (apiKey jsonData body : String) (qwenResp : QwenResponse)
    (hmarshal : w.jsonMarshal req = .ok jsonData)
    (hnew : w.newRequestError "POST" qwenURL jsonData = none)
    (hsend : w.clientDo
        { method := "POST", url := qwenURL,
          headers := [("Content-Type", "application/json"),
                      ("Authorization", "Bearer " ++ apiKey)],
          body := jsonData } = .response 200 (.ok body))
    (hdecode : w.jsonUnmarshal body = .ok qwenResp)
    (htext : qwenResp.Text = "") :
    (qwenResp.FinishReason ≠ "" ∧ qwenResp.FinishReason ≠ "stop" →
        (callQwenAPI w req apiKey).2
          = .error ("API generation finished unexpectedly with reason: "
                      ++ qwenResp.FinishReason))
    ∧ (qwenResp.FinishReason = "stop" ∨ qwenResp.FinishReason = "" →
        (callQwenAPI w req apiKey).2 = .error "API returned an empty response text")
    ∧ ∀ t, (callQwenAPI w req apiKey).2 ≠ .ok t := by
  have hcall := callQwenAPI_ok_200 w req apiKey jsonData body hmarshal hnew hsend
  rw [hdecode] at hcall
  simp only [if_pos htext] at hcall
  refine ⟨?_, ?_, ?_⟩
  · rintro ⟨h1, h2⟩
    rw [hcall, if_pos ⟨h2, h1⟩]
  · intro h
    have : ¬ (qwenResp.FinishReason ≠ "stop" ∧ qwenResp.FinishReason ≠ "") := by
      rintro ⟨h1, h2⟩
      rcases h with h | h
      · exact h1 h
      · exact h2 h
    rw [hcall, if_neg this]
  · intro t
    rw [hcall]
    split <;> simp

theorem callQwenAPI_empty_text_witness :
    (callQwenAPI (testWorld "s3cret" "key" lighthouse (.response 200 (.ok lengthEmptyBody)))
        (qwenRequest lighthouse) "key").2
      = .error ("API generation finished unexpectedly with reason: " ++ "length") :=
  (callQwenAPI_empty_text
    (testWorld "s3cret" "key" lighthouse (.response 200 (.ok lengthEmptyBody)))
    (qwenRequest lighthouse) "key" "payload" lengthEmptyBody
    { FinishReason := "length", Text := "" } rfl rfl rfl rfl rfl).1 (by decide)

/-- C5: when the remote API answers 200 and the body decodes to the finish
reason "stop" and a non-empty text `t`, `callQwenAPI` returns exactly `t` with
no error, and `generateBook` answers 200 with the JSON object `{book: t}`. -/
theorem generateBook_round_trip (w : World) (c : Ctx) (req : BookRequest)
    (jsonData body t : String)
    (hbind : w.bindBody c = .ok req)
    (hvalid : ¬ (req.Title = "" ∨ req.Description = "" ∨ req.Chapters ≤ 0))
    (hkey : w.getenv "QWEN_API_KEY" ≠ "")
    (hmarshal : w.jsonMarshal (qwenRequest req) = .ok jsonData)
    (hnew : w.newRequestError "POST" qwenURL jsonData = none)
    (hsend : w.clientDo
        { method := "POST", url := qwenURL,
          headers := [("Content-Type", "application/json"),
                      ("Authorization", "Bearer " ++ w.getenv "QWEN_API_KEY")],
          body := jsonData } = .response 200 (.ok body))
    (hdecode : w.jsonUnmarshal body = .ok { FinishReason := "stop", Text := t })
    (htext : t ≠ "") :
    callQwenAPI w (qwenRequest req) (w.getenv "QWEN_API_KEY") = ([], .ok t)
    ∧ generateBook w c
        = [.callQwen (qwenRequest req) (w.getenv "QWEN_API_KEY"),
           .respond StatusOK [("book", t)]] := by
  have hcall : callQwenAPI w (qwenRequest req) (w.getenv "QWEN_API_KEY") = ([], .ok t) := by
    rw [callQwenAPI_ok_200 w _ _ jsonData body hmarshal hnew hsend, hdecode]
    simp only [if_neg htext]
  refine ⟨hcall, ?_⟩
  rw [generateBook_valid w c req hbind hvalid hkey, hcall]
  rfl

theorem generateBook_round_trip_witness :
    callQwenAPI (testWorld "s3cret" "key" lighthouse (.response 200 (.ok stopBody)))
        (qwenRequest lighthouse) "key" = ([], .ok "Chapter 1...")
    ∧ generateBook (testWorld "s3cret" "key" lighthouse (.response 200 (.ok stopBody)))
        { Authorization := "Bearer auth-token", Body := "" }
      = [.callQwen (qwenRequest lighthouse) "key",
         .respond 200 [("book", "Chapter 1...")]] :=
  generateBook_round_trip
    (testWorld "s3cret" "key" lighthouse (.response 200 (.ok stopBody)))
    { Authorization := "Bearer auth-token", Body := "" } lighthouse "payload" stopBody
    "Chapter 1..." rfl (by decide) (by decide) rfl rfl rfl rfl (by decide)

/-- C8: a decoded body with an empty title, an empty description or a chapter
count that is zero or negative is answered with 400, and `callQwenAPI` is not
called, whatever the environment holds for the API key. -/
theorem generateBook_invalid_fields (w : World) (c : Ctx) (req : BookRequest)
    (hbind : w.bindBody c = .ok req)
    (hbad : req.Title = "" ∨ req.Description = "" ∨ req.Chapters ≤ 0) :
    generateBook w c
        = [.respond StatusBadRequest
            [("error", "Title, description, and chapters are required")]]
      ∧ StatusBadRequest = 400
      ∧ invokesForwarder (generateBook w c) = false
      ∧ ∀ r k, Effect.callQwen r k ∉ generateBook w c := by
  have key : generateBook w c
      = [.respond StatusBadRequest
          [("error", "Title, description, and chapters are required")]] := by
    unfold generateBook
    simp only [hbind, if_pos hbad]
  refine ⟨key, rfl, ?_, ?_⟩
  · rw [key]; rfl
  · intro r k
    rw [key]
    simp

theorem generateBook_invalid_fields_witness :
    generateBook
        (testWorld "s3cret" "key" { Title := "The Lighthouse", Description := "d", Chapters := 0 }
          (.response 200 (.ok stopBody)))
        { Authorization := "Bearer auth-token", Body := "" }
      = [.respond 400 [("error", "Title, description, and chapters are required")]]
    ∧ generateBook
        (testWorld "s3cret" "" { Title := "", Description := "d", Chapters := 2 }
          (.response 200 (.ok stopBody)))
        { Authorization := "Bearer auth-token", Body := "" }
      = [.respond 400 [("error", "Title, description, and chapters are required")]] :=
  ⟨(generateBook_invalid_fields
      (testWorld "s3cret" "key" { Title := "The Lighthouse", Description := "d", Chapters := 0 }
        (.response 200 (.ok stopBody)))
      { Authorization := "Bearer auth-token", Body := "" } _ rfl (by decide)).1,
   (generateBook_invalid_fields
      (testWorld "s3cret" "" { Title := "", Description := "d", Chapters := 2 }
        (.response 200 (.ok stopBody)))
      { Authorization := "Bearer auth-token", Body := "" } _ rfl (by decide)).1⟩


/-! ## The shape of a run -/

/-- The forwarder writes no log line, or it writes the empty-text warning and
fails. -/
theorem callQwenAPI_cases (w : World) (req : QwenAPIRequest) (apiKey : String) :
    (∃ res, callQwenAPI w req apiKey = ([], res))
    ∨ ∃ f a e, callQwenAPI w req apiKey = ([.logPrintf f a], .error e) := by
  cases hmarshal : w.jsonMarshal req with
  | error e =>
    left
    exact ⟨.error ("failed to marshal request: " ++ e), by simp [callQwenAPI, hmarshal]⟩
  | ok jsonData =>
    cases hnew : w.newRequestError "POST" qwenURL jsonData with
    | some e =>
      left
      exact ⟨.error ("failed to create HTTP request: " ++ e),
        by simp [callQwenAPI, hmarshal, hnew]⟩
    | none =>
      cases hsend : w.clientDo
          { method := "POST", url := qwenURL,
            headers := [("Content-Type", "application/json"),
                        ("Authorization", "Bearer " ++ apiKey)],
            body := jsonData } with
      | failed d e =>
        left
        cases d
        · exact ⟨.error ("failed to send request: " ++ e),
            by simp [callQwenAPI, hmarshal, hnew, hsend]⟩
        · exact ⟨.error ("request timed out after 6 minutes: " ++ e),
            by simp [callQwenAPI, hmarshal, hnew, hsend]⟩
      | response statusCode rd =>
        cases rd with
        | error e =>
          left
          exact ⟨.error ("failed to read response body: " ++ e),
            by simp [callQwenAPI, hmarshal, hnew, hsend]⟩
        | ok body =>
          by_cases hstatus : statusCode = 200
          · subst hstatus
            rw [callQwenAPI_ok_200 w req apiKey jsonData body hmarshal hnew hsend]
            cases hdecode : w.jsonUnmarshal body with
            | error e => left; exact ⟨_, rfl⟩
            | ok qwenResp =>
              by_cases htext : qwenResp.Text = ""
              · right
                simp only [if_pos htext]
                split
                · exact ⟨_, _, _, rfl⟩
                · exact ⟨_, _, _, rfl⟩
              · left
                simp only [if_neg htext]
                exact ⟨_, rfl⟩
          · left
            exact ⟨_, callQwenAPI_status w req apiKey jsonData body statusCode
              hmarshal hnew hsend hstatus⟩

/-- The forwarder writes the empty-text warning, and fails, exactly when the
remote API answers 200 with a body that decodes with an empty text; otherwise
it writes no log line. -/
theorem callQwenAPI_warning_cases (w : World) (req : QwenAPIRequest) (apiKey : String) :
    (EmptyTextAnswer w req apiKey →
        ∃ f a e, callQwenAPI w req apiKey = ([.logPrintf f a], .error e))
    ∧ (¬ EmptyTextAnswer w req apiKey → ∃ res, callQwenAPI w req apiKey = ([], res)) := by
  constructor
  · rintro ⟨jsonData, body, qwenResp, hmarshal, hnew, hsend, hdecode, htext⟩
    rw [callQwenAPI_ok_200 w req apiKey jsonData body hmarshal hnew hsend, hdecode]
    simp only [if_pos htext]
    split
    · exact ⟨_, _, _, rfl⟩
    · exact ⟨_, _, _, rfl⟩
  · intro hnot
    rcases callQwenAPI_cases w req apiKey with h | ⟨f, a, e, h⟩
    · exact h
    · exfalso
      apply hnot
      cases hmarshal : w.jsonMarshal req with
      | error e2 => simp [callQwenAPI, hmarshal] at h
      | ok jsonData =>
        cases hnew : w.newRequestError "POST" qwenURL jsonData with
        | some e2 => simp [callQwenAPI, hmarshal, hnew] at h
        | none =>
          cases hsend : w.clientDo
              { method := "POST", url := qwenURL,
                headers := [("Content-Type", "application/json"),
                            ("Authorization", "Bearer " ++ apiKey)],
                body := jsonData } with
          | failed d e2 =>
            cases d <;> simp [callQwenAPI, hmarshal, hnew, hsend] at h
          | response statusCode rd =>
            cases rd with
            | error e2 => simp [callQwenAPI, hmarshal, hnew, hsend] at h
            | ok body =>
              by_cases hstatus : statusCode = 200
              · subst hstatus
                rw [callQwenAPI_ok_200 w req apiKey jsonData body hmarshal hnew hsend] at h
                cases hdecode : w.jsonUnmarshal body with
                | error e2 => simp [hdecode] at h
                | ok qwenResp =>
                  by_cases htext : qwenResp.Text = ""
                  · exact ⟨jsonData, body, qwenResp, hmarshal, hnew, hsend, hdecode, htext⟩
                  · rw [hdecode] at h
                    simp [htext] at h
              · rw [callQwenAPI_status w req apiKey jsonData body statusCode
                  hmarshal hnew hsend hstatus] at h
                simp at h

/-- The five shapes of a run of `generateBook`.  A failed call of the forwarder
carries the empty-text warning exactly when the remote API answered 200 with an
empty text. -/
theorem generateBook_cases (w : World) (c : Ctx) :
    (∃ msg, generateBook w c = [.respond 400 [("error", msg)]])
    ∨ generateBook w c
        = [.logPrintln "Error: QWEN_API_KEY environment variable not set",
           .respond 500 [("error", "Server configuration error (missing AI API key)")]]
    ∨ (∃ r k e, ¬ EmptyTextAnswer w r k ∧ generateBook w c
        = [.callQwen r k, .logPrintf "Error calling Qwen API: %v" [.str e],
           .respond 500 [("error", "Failed to generate book: " ++ e)]])
    ∨ (∃ r k f a e, EmptyTextAnswer w r k ∧ generateBook w c
        = [.callQwen r k, .logPrintf f a, .logPrintf "Error calling Qwen API: %v" [.str e],
           .respond 500 [("error", "Failed to generate book: " ++ e)]])
    ∨ ∃ r k t, generateBook w c = [.callQwen r k, .respond 200 [("book", t)]] := by
  cases hbind : w.bindBody c with
  | error e =>
    left
    exact ⟨"Invalid request body: " ++ e, by simp [generateBook, hbind, StatusBadRequest]⟩
  | ok req =>
    by_cases hvalid : req.Title = "" ∨ req.Description = "" ∨ req.Chapters ≤ 0
    · left; exact ⟨_, by simp only [generateBook, hbind, if_pos hvalid]; rfl⟩
    · by_cases hkey : w.getenv "QWEN_API_KEY" = ""
      · right; left
        simp only [generateBook, hbind, if_neg hvalid, if_pos hkey]
        rfl
      · right; right
        rw [generateBook_valid w c req hbind hvalid hkey]
        by_cases hempty : EmptyTextAnswer w (qwenRequest req) (w.getenv "QWEN_API_KEY")
        · obtain ⟨f, a, e, h⟩ := (callQwenAPI_warning_cases w _ _).1 hempty
          rw [h]
          right; left
          exact ⟨_, _, f, a, e, hempty, rfl⟩
        · obtain ⟨res, h⟩ := (callQwenAPI_warning_cases w _ _).2 hempty
          rw [h]
          cases res with
          | error e => left; exact ⟨_, _, e, hempty, rfl⟩
          | ok t => right; right; exact ⟨_, _, t, rfl⟩

/-- The four shapes of a run of `jwtMiddleware`. -/
theorem jwtMiddleware_cases (w : World) (next : Ctx → List Effect) (c : Ctx) :
    (∃ msg, msg ≠ "Invalid or expired JWT"
        ∧ jwtMiddleware w next c = [.respond 401 [("error", msg)]])
    ∨ jwtMiddleware w next c
        = [.logPrintln "Error: POCKETBASE_TOKEN_SECRET environment variable not set",
           .respond 500 [("error", "Server configuration error")]]
    ∨ (∃ e, jwtMiddleware w next c
        = [.logPrintf "JWT validation error: %v\n" [.str e],
           .respond 401 [("error", "Invalid or expired JWT")]])
    ∨ ∃ a, jwtMiddleware w next c
        = .logPrintf "JWT valid for user ID: %v\n" a :: .next :: next c := by
  by_cases hne : c.Authorization = ""
  · left
    exact ⟨"Missing or malformed JWT", by decide, by simp only [jwtMiddleware, if_pos hne]; rfl⟩
  · by_cases hfmt : (stringsSplit c.Authorization ' ').length ≠ 2
        ∨ (stringsSplit c.Authorization ' ').getD 0 "" ≠ "Bearer"
    · left
      exact ⟨"Malformed Authorization header", by decide,
        by simp only [jwtMiddleware, if_neg hne, if_pos hfmt]; rfl⟩
    · obtain ⟨tok, htok, hhdr⟩ := (bearer_format_iff c.Authorization).mp hfmt
      rw [jwtMiddleware_bearer w next c tok hhdr htok]
      by_cases hsecret : w.getenv "POCKETBASE_TOKEN_SECRET" = ""
      · right; left
        rw [if_pos hsecret]
      · rw [if_neg hsecret]
        cases hparse : w.jwtParse tok (w.getenv "POCKETBASE_TOKEN_SECRET") with
        | error e => right; right; left; exact ⟨e, rfl⟩
        | ok token =>
          obtain ⟨claims, valid⟩ := token
          cases claims with
          | none => left; exact ⟨"Invalid JWT", by decide, rfl⟩
          | some claims =>
            cases valid with
            | false => left; exact ⟨"Invalid JWT", by decide, rfl⟩
            | true =>
              simp only
              split
              · next tokenType _ =>
                by_cases ht : tokenType ≠ "auth"
                · left; exact ⟨"Invalid token type", by decide, by rw [if_pos ht]⟩
                · right; right; right; exact ⟨_, by rw [if_neg ht]⟩
              · left; exact ⟨"Invalid token type", by decide, rfl⟩

/-! ## The remote request -/

/-- C7: the remote request built from a book request has the model
"qwen-plus", the result format "message" and two messages, `system` then
`user`; the content of each holds the title, the description and the decimal
rendering of the chapter count; and every request `generateBook` hands to
`callQwenAPI` is this function of the decoded body. -/
theorem qwenRequest_contents (req : BookRequest) :
    (qwenRequest req).Model = "qwen-plus"
    ∧ (qwenRequest req).ResultFormat = "message"
    ∧ (qwenRequest req).Messages.map QwenMessage.Role = ["system", "user"]
    ∧ (∀ m ∈ (qwenRequest req).Messages,
        Contains m.Content req.Title ∧ Contains m.Content req.Description
          ∧ Contains m.Content (fmtD req.Chapters))
    ∧ ∀ (w : World) (c : Ctx) (r : QwenAPIRequest) (k : String),
        Effect.callQwen r k ∈ generateBook w c →
          ∃ decoded, w.bindBody c = .ok decoded ∧ r = qwenRequest decoded := by
  refine ⟨rfl, rfl, rfl, ?_, ?_⟩
  · intro m hm
    simp only [qwenRequest, List.mem_cons, List.mem_singleton, List.not_mem_nil, or_false] at hm
    rcases hm with rfl | rfl
    · refine ⟨?_, ?_, ?_⟩
      · exact contains_append_of_left _ _ _ (contains_append_of_left _ _ _
          (contains_append_of_left _ _ _ (contains_append_of_left _ _ _
            (contains_append_of_left _ _ _ (contains_append_right _ _)))))
      · exact contains_append_of_left _ _ _ (contains_append_of_left _ _ _
          (contains_append_of_left _ _ _ (contains_append_right _ _)))
      · exact contains_append_of_left _ _ _ (contains_append_right _ _)
    · refine ⟨?_, ?_, ?_⟩
      · exact contains_append_of_left _ _ _ (contains_append_of_left _ _ _
          (contains_append_of_left _ _ _ (contains_append_of_left _ _ _
            (contains_append_right _ _))))
      · exact contains_append_right _ _
      · exact contains_append_of_left _ _ _ (contains_append_of_left _ _ _
          (contains_append_right _ _))
  · intro w c r k hmem
    cases hbind : w.bindBody c with
    | error e => simp [generateBook, hbind] at hmem
    | ok decoded =>
      refine ⟨decoded, rfl, ?_⟩
      by_cases hvalid : decoded.Title = "" ∨ decoded.Description = "" ∨ decoded.Chapters ≤ 0
      · simp [generateBook, hbind, hvalid] at hmem
      · by_cases hkey : w.getenv "QWEN_API_KEY" = ""
        · simp [generateBook, hbind, hvalid, hkey] at hmem
        · rw [generateBook_valid w c decoded hbind hvalid hkey] at hmem
          rcases callQwenAPI_cases w (qwenRequest decoded) (w.getenv "QWEN_API_KEY") with
            ⟨res, h⟩ | ⟨f, a, e, h⟩
          · rw [h] at hmem
            cases res <;> simp at hmem <;> exact hmem.1
          · rw [h] at hmem
            simp at hmem
            exact hmem.1

theorem qwenRequest_contents_witness :
    (qwenRequest lighthouse).Messages.map QwenMessage.Role = ["system", "user"]
    ∧ Contains (systemPrompt lighthouse) "The Lighthouse"
    ∧ Contains (systemPrompt lighthouse) "A keeper's last night"
    ∧ Contains (systemPrompt lighthouse) "3"
    ∧ Contains (userPrompt lighthouse) "The Lighthouse"
    ∧ Contains (userPrompt lighthouse) "A keeper's last night"
    ∧ Contains (userPrompt lighthouse) "3" :=
  ⟨(qwenRequest_contents lighthouse).2.2.1,
   ((qwenRequest_contents lighthouse).2.2.2.1
      { Role := "system", Content := systemPrompt lighthouse } (by simp [qwenRequest])).1,
   ((qwenRequest_contents lighthouse).2.2.2.1
      { Role := "system", Content := systemPrompt lighthouse } (by simp [qwenRequest])).2.1,
   ((qwenRequest_contents lighthouse).2.2.2.1
      { Role := "system", Content := systemPrompt lighthouse } (by simp [qwenRequest])).2.2,
   ((qwenRequest_contents lighthouse).2.2.2.1
      { Role := "user", Content := userPrompt lighthouse } (by simp [qwenRequest])).1,
   ((qwenRequest_contents lighthouse).2.2.2.1
      { Role := "user", Content := userPrompt lighthouse } (by simp [qwenRequest])).2.1,
   ((qwenRequest_contents lighthouse).2.2.2.1
      { Role := "user", Content := userPrompt lighthouse } (by simp [qwenRequest])).2.2⟩

/-! ## Log entries and responses -/

/-- C10 (as amended): every run of the route writes exactly one HTTP response
and at most three log entries.  A 401 carries one entry when the parser refused
the token and none otherwise; a 400 carries one entry; a 500 carries one entry
for the missing signing secret and two for the missing API key; a 500 for a
failure of `callQwenAPI` carries three entries when the remote API answered 200
with an empty text and two otherwise. -/
theorem generateBookRoute_logs_and_responses (w : World) (c : Ctx) :
    responseCount (generateBookRoute w c) = 1
    ∧ logCount (generateBookRoute w c) ≤ 3
    ∧ (∀ msg, Effect.respond 401 [("error", msg)] ∈ generateBookRoute w c →
        logCount (generateBookRoute w c) = if msg = "Invalid or expired JWT" then 1 else 0)
    ∧ (∀ body, Effect.respond 400 body ∈ generateBookRoute w c →
        logCount (generateBookRoute w c) = 1)
    ∧ (Effect.respond 500 [("error", "Server configuration error")] ∈ generateBookRoute w c →
        logCount (generateBookRoute w c) = 1)
    ∧ (Effect.respond 500 [("error", "Server configuration error (missing AI API key)")]
          ∈ generateBookRoute w c →
        logCount (generateBookRoute w c) = 2)
    ∧ (∀ e, Effect.respond 500 [("error", "Failed to generate book: " ++ e)]
          ∈ generateBookRoute w c →
        logCount (generateBookRoute w c) = 2 ∨ logCount (generateBookRoute w c) = 3)
    ∧ (∀ e, Effect.respond 500 [("error", "Failed to generate book: " ++ e)]
          ∈ generateBookRoute w c →
        (∃ r k, Effect.callQwen r k ∈ generateBookRoute w c)
        ∧ ∀ r k, Effect.callQwen r k ∈ generateBookRoute w c →
            (EmptyTextAnswer w r k → logCount (generateBookRoute w c) = 3)
            ∧ (¬ EmptyTextAnswer w r k → logCount (generateBookRoute w c) = 2)) := by
  unfold generateBookRoute
  rcases jwtMiddleware_cases w (generateBook w) c with
    ⟨msg, hmsg, h⟩ | h | ⟨e, h⟩ | ⟨a, h⟩
  · rw [h]
    simp [logCount, responseCount, hmsg]
  · rw [h]
    simp [logCount, responseCount, failedMessage_ne_configError]
  · rw [h]
    simp [logCount, responseCount]
  · rw [h]
    rcases generateBook_cases w c with
      ⟨msg, g⟩ | g | ⟨r, k, e, hne, g⟩ | ⟨r, k, f, a2, e, hem, g⟩ | ⟨r, k, t, g⟩
    · rw [g]
      simp [logCount, responseCount]
    · rw [g]
      simp [logCount, responseCount, failedMessage_ne_missingKey]
    · rw [g]
      refine ⟨by simp [responseCount], by simp [logCount], by simp, by simp,
        by simp [configError_ne_failedMessage], by simp [missingKey_ne_failedMessage],
        by simp [logCount], ?_⟩
      intro _ _
      refine ⟨⟨r, k, by simp⟩, ?_⟩
      intro r2 k2 hmem
      simp only [List.mem_cons, Effect.callQwen.injEq, List.mem_singleton, reduceCtorEq,
        false_or, or_false, List.not_mem_nil] at hmem
      obtain ⟨rfl, rfl⟩ := hmem
      exact ⟨fun h2 => absurd h2 hne, fun _ => by simp [logCount]⟩
    · rw [g]
      refine ⟨by simp [responseCount], by simp [logCount], by simp, by simp,
        by simp [configError_ne_failedMessage], by simp [missingKey_ne_failedMessage],
        by simp [logCount], ?_⟩
      intro _ _
      refine ⟨⟨r, k, by simp⟩, ?_⟩
      intro r2 k2 hmem
      simp only [List.mem_cons, Effect.callQwen.injEq, List.mem_singleton, reduceCtorEq,
        false_or, or_false, List.not_mem_nil] at hmem
      obtain ⟨rfl, rfl⟩ := hmem
      exact ⟨fun _ => by simp [logCount], fun h2 => absurd hem h2⟩
    · rw [g]
      simp [logCount, responseCount]

/-- C10 (as stated) fails: a request with no Authorization header is rejected
with one response and no log entry, and a callQwenAPI failure on an empty
upstream text is answered with one response after three log entries. -/
theorem generateBookRoute_log_count_not_one :
    generateBookRoute (testWorld "s3cret" "key" lighthouse (.response 200 (.ok lengthEmptyBody)))
        { Authorization := "", Body := "" }
      = [.respond 401 [("error", "Missing or malformed JWT")]]
    ∧ logCount
        (generateBookRoute
          (testWorld "s3cret" "key" lighthouse (.response 200 (.ok lengthEmptyBody)))
          { Authorization := "", Body := "" }) = 0
    ∧ responseCount
        (generateBookRoute
          (testWorld "s3cret" "key" lighthouse (.response 200 (.ok lengthEmptyBody)))
          { Authorization := "Bearer auth-token", Body := "" }) = 1
    ∧ logCount
        (generateBookRoute
          (testWorld "s3cret" "key" lighthouse (.response 200 (.ok lengthEmptyBody)))
          { Authorization := "Bearer auth-token", Body := "" }) = 3 :=
  ⟨rfl, rfl, rfl, rfl⟩

theorem generateBookRoute_logs_and_responses_witness :
    logCount
        (generateBookRoute
          (testWorld "s3cret" "key" { Title := "", Description := "d", Chapters := 2 }
            (.response 200 (.ok stopBody)))
          { Authorization := "Bearer auth-token", Body := "" }) = 1
    ∧ logCount
        (generateBookRoute (testWorld "s3cret" "" lighthouse (.response 200 (.ok stopBody)))
          { Authorization := "Bearer auth-token", Body := "" }) = 2
    ∧ logCount
        (generateBookRoute
          (testWorld "s3cret" "key" lighthouse (.response 200 (.ok lengthEmptyBody)))
          { Authorization := "Bearer auth-token", Body := "" }) = 3 :=
  ⟨(generateBookRoute_logs_and_responses
      (testWorld "s3cret" "key" { Title := "", Description := "d", Chapters := 2 }
        (.response 200 (.ok stopBody)))
      { Authorization := "Bearer auth-token", Body := "" }).2.2.2.1
      [("error", "Title, description, and chapters are required")] (by decide),
   (generateBookRoute_logs_and_responses
      (testWorld "s3cret" "" lighthouse (.response 200 (.ok stopBody)))
      { Authorization := "Bearer auth-token", Body := "" }).2.2.2.2.2.1 (by decide),
   (((generateBookRoute_logs_and_responses
      (testWorld "s3cret" "key" lighthouse (.response 200 (.ok lengthEmptyBody)))
      { Authorization := "Bearer auth-token", Body := "" }).2.2.2.2.2.2.2
      "API generation finished unexpectedly with reason: length"
      (List.mem_cons_of_mem _ (List.mem_cons_of_mem _ (List.mem_cons_of_mem _
        (List.mem_cons_of_mem _ (List.mem_cons_of_mem _ (List.mem_singleton.mpr rfl))))))).2
      (qwenRequest lighthouse) "key"
      (List.mem_cons_of_mem _ (List.mem_cons_of_mem _ (List.mem_cons_self _ _)))).1
      ⟨"payload", lengthEmptyBody, { FinishReason := "length", Text := "" },
        rfl, rfl, rfl, rfl, rfl⟩⟩

end BookWrite
